import Mathlib

/-!
# RAG-Application front end: request orchestration of `App` (frontend/src/app.js)

A shallow embedding of the `App` component: its six `useState` cells, the two
asynchronous click handlers `handleIngestPdf` and `handleQuery`, and the parts
of the returned markup that depend on the state (the two buttons, the status
block and the answer block).

Modelling conventions.

* The six state cells form one record, `AppState`.  A call of a `useState`
  setter is a write to that record; writes take effect in program order.
* `axios.post` is the only effect besides state writes.  The transport is a
  log of the requests handed to it (`World.sent`); how a request ends is an
  `Outcome` supplied from outside: the promise resolves with a response or
  rejects with an error carrying a `message`.
* An `async` handler is cut at its single `await`: the segment run at the
  call (`..._dispatch`) and the segment run when the promise settles
  (`..._settle`).  The whole handler is the composition of the two.
* Strings are `String`, `+` on strings is `++`, an empty string is falsy and
  every other string is truthy, every array is truthy, `undefined` is falsy.
* The response body of `/query` has the shape the service promises:
  `answer` is a string, `sources` is an array of strings or is missing.
-/

namespace RagApp

/-! ## Data model -/

/-- The six `useState` cells of `App` (lines 6-11), with their source names. -/
structure AppState where
  pdfPath : String
  question : String
  answer : String
  sources : List String
  loading : Bool
  uploadStatus : String
  deriving DecidableEq, Repr

/-- Initial values of the cells (the arguments of `useState`, lines 6-11). -/
def AppState.initial : AppState :=
  { pdfPath := "", question := "", answer := "", sources := [],
    loading := false, uploadStatus := "" }

/-- The two request bodies handed to `axios.post` (lines 17-19 and 32-35). -/
inductive Request where
  | ingest (pdf_path : String)
  | query (question : String) (top_k : Nat)
  deriving DecidableEq, Repr

/-- The value caught by `catch (error)`; only `error.message` is read. -/
structure JsError where
  message : String
  deriving DecidableEq, Repr

/-- How the awaited promise settles: resolved with a response, or rejected. -/
inductive Outcome (α : Type) where
  | resolved (response : α)
  | rejected (error : JsError)
  deriving DecidableEq, Repr

/-- Body of a `/query` response: `response.data`.  A missing `sources` field
(reading it gives `undefined`) is `none`. -/
structure QueryData where
  answer : String
  sources : Option (List String)
  deriving DecidableEq, Repr

/-- The component state together with the transport log: every request passed
to `axios.post` so far, oldest first. -/
structure World where
  ui : AppState
  sent : List Request
  deriving DecidableEq, Repr

/-! ## JavaScript operators used by the component -/

/-- Truthiness of a string: only the empty string is falsy. -/
def truthy (s : String) : Bool := s != ""

/-- The expression `x || []` for `x` an array or `undefined`: an array is
truthy and is returned as it is, `undefined` is falsy and gives `[]`. -/
def orEmpty (x : Option (List String)) : List String :=
  match x with
  | some xs => xs
  | none => []

/-- Does the second list start the first one. -/
def startsWithChars : List Char → List Char → Bool
  | _, [] => true
  | [], _ :: _ => false
  | c :: cs, d :: ds => c == d && startsWithChars cs ds

/-- Does the second list occur as a contiguous block of the first one. -/
def includesChars : List Char → List Char → Bool
  | [], needle => startsWithChars [] needle
  | c :: cs, needle => startsWithChars (c :: cs) needle || includesChars cs needle

/-- The method `String.prototype.includes`: substring search. -/
def includes (s needle : String) : Bool := includesChars s.data needle.data

/-! ## State setters and the transport -/

def setPdfPath (v : String) (w : World) : World := { w with ui := { w.ui with pdfPath := v } }

def setQuestion (v : String) (w : World) : World := { w with ui := { w.ui with question := v } }

def setAnswer (v : String) (w : World) : World := { w with ui := { w.ui with answer := v } }

def setSources (v : List String) (w : World) : World := { w with ui := { w.ui with sources := v } }

def setLoading (v : Bool) (w : World) : World := { w with ui := { w.ui with loading := v } }

def setUploadStatus (v : String) (w : World) : World :=
  { w with ui := { w.ui with uploadStatus := v } }

/-- The call `axios.post(url, body)`: the request is handed to the transport. -/
def axiosPost (r : Request) (w : World) : World := { w with sent := w.sent ++ [r] }

/-! ## The handlers -/

/-- Lines 14-19 of `handleIngestPdf`: everything up to the `await`.  The body
reads `pdfPath` of the state the handler was called in. -/
def handleIngestPdf_dispatch (w : World) : World :=
  let pdfPath := w.ui.pdfPath
  let w := setLoading true w
  let w := setUploadStatus "" w
  axiosPost (Request.ingest pdfPath) w

/-- Lines 20-24 of `handleIngestPdf`: the rest of the `try`, or the `catch`,
then `setLoading(false)`.  The response is bound and never read. -/
def handleIngestPdf_settle {α : Type} (o : Outcome α) (w : World) : World :=
  let w :=
    match o with
    | Outcome.resolved _ => setUploadStatus "PDF ingested successfully!" w
    | Outcome.rejected error => setUploadStatus ("Error ingesting PDF: " ++ error.message) w
  setLoading false w

/-- The handler `handleIngestPdf` (lines 13-25) run to completion against a
transport that settles the request with `o`. -/
def handleIngestPdf {α : Type} (o : Outcome α) (w : World) : World :=
  handleIngestPdf_settle o (handleIngestPdf_dispatch w)

/-- Lines 28-35 of `handleQuery`: everything up to the `await`. -/
def handleQuery_dispatch (w : World) : World :=
  let question := w.ui.question
  let w := setLoading true w
  let w := setAnswer "" w
  let w := setSources [] w
  axiosPost (Request.query question 5) w

/-- Lines 36-41 of `handleQuery`. -/
def handleQuery_settle (o : Outcome QueryData) (w : World) : World :=
  let w :=
    match o with
    | Outcome.resolved data =>
      let w := setAnswer data.answer w
      setSources (orEmpty data.sources) w
    | Outcome.rejected error => setAnswer ("Error: " ++ error.message) w
  setLoading false w

/-- The handler `handleQuery` (lines 27-42) run to completion. -/
def handleQuery (o : Outcome QueryData) (w : World) : World :=
  handleQuery_settle o (handleQuery_dispatch w)

/-! ## The rendered view -/

/-- The class of the status block: the two values of the template string on
line 71. -/
inductive StatusClass where
  | error
  | success
  deriving DecidableEq, Repr

/-- The attribute `disabled` of the ingest button (line 64). -/
def ingestDisabled (s : AppState) : Bool := s.loading || !truthy s.pdfPath

/-- The attribute `disabled` of the query button (line 90). -/
def queryDisabled (s : AppState) : Bool := s.loading || !truthy s.question

/-- The status block (lines 70-74): rendered when `uploadStatus` is truthy,
with its class and its text. -/
def statusBlock (s : AppState) : Option (StatusClass × String) :=
  if truthy s.uploadStatus then
    some (if includes s.uploadStatus "Error" then StatusClass.error else StatusClass.success,
      s.uploadStatus)
  else none

/-- The sources list inside the answer block (lines 105-114). -/
def sourcesList (s : AppState) : Option (List String) :=
  if s.sources.length > 0 then some s.sources else none

/-- The answer block (lines 99-116): rendered when `answer` is truthy, with the
answer text and the sources list if that is rendered. -/
def answerBlock (s : AppState) : Option (String × Option (List String)) :=
  if truthy s.answer then some (s.answer, sourcesList s) else none

/-- What `App` returns, as far as it depends on the state. -/
structure View where
  ingestDisabled : Bool
  ingestLabel : String
  statusBlock : Option (StatusClass × String)
  queryDisabled : Bool
  queryLabel : String
  answerBlock : Option (String × Option (List String))
  deriving DecidableEq, Repr

/-- The markup returned by `App` (lines 44-119). -/
def render (s : AppState) : View :=
  { ingestDisabled := ingestDisabled s
    ingestLabel := if s.loading then "Processing..." else "Ingest PDF"
    statusBlock := statusBlock s
    queryDisabled := queryDisabled s
    queryLabel := if s.loading then "Searching..." else "Ask Question"
    answerBlock := answerBlock s }

/-- A click on the ingest button (lines 62-64): a disabled button delivers no
click, an enabled one calls `onClick`, which runs the handler up to its
`await`. -/
def clickIngest (w : World) : World :=
  if (render w.ui).ingestDisabled then w else handleIngestPdf_dispatch w

/-- A click on the query button (lines 88-90). -/
def clickQuery (w : World) : World :=
  if (render w.ui).queryDisabled then w else handleQuery_dispatch w

/-! ## Concrete states used below -/

/-- A state with a request in flight and results of earlier operations. -/
def busyWorld : World :=
  { ui := { pdfPath := "D:/doc.pdf", question := "What is RAG?", answer := "old answer",
            sources := ["p1"], loading := true, uploadStatus := "PDF ingested successfully!" }
    sent := [Request.ingest "D:/doc.pdf"] }

/-- An idle state with both inputs filled in. -/
def idleWorld : World :=
  { ui := { pdfPath := "D:/doc.pdf", question := "x", answer := "old answer",
            sources := ["p1", "p3"], loading := false, uploadStatus := "old status" }
    sent := [] }

/-! ## User events -/

/-- What the user can do to the page: type into either field (`onChange`,
lines 59 and 84) or click either button (`onClick`, lines 63 and 89). -/
inductive UiEvent where
  | typePdfPath (value : String)
  | typeQuestion (value : String)
  | pressIngest
  | pressQuery
  deriving DecidableEq, Repr

/-- The effect of one user event. -/
def applyEvent (w : World) (e : UiEvent) : World :=
  match e with
  | UiEvent.typePdfPath v => setPdfPath v w
  | UiEvent.typeQuestion v => setQuestion v w
  | UiEvent.pressIngest => clickIngest w
  | UiEvent.pressQuery => clickQuery w

/-- The effect of a sequence of user events, first event first. -/
def applyEvents (w : World) (es : List UiEvent) : World := es.foldl applyEvent w

/-! ## Facts about the JavaScript operators -/

theorem truthy_iff (s : String) : truthy s = true ↔ s ≠ "" := by
  simp [truthy]

theorem truthy_append_of_truthy (a b : String) (h : truthy a = true) :
    truthy (a ++ b) = true := by
  rw [truthy_iff] at *
  intro hab
  apply h
  have hd : (a ++ b).data = [] := by rw [hab]
  rw [String.data_append, List.append_eq_nil] at hd
  exact String.ext hd.1

theorem startsWithChars_iff (s needle : List Char) :
    startsWithChars s needle = true ↔ needle <+: s := by
  induction needle generalizing s with
  | nil => cases s <;> simp [startsWithChars]
  | cons d ds ih =>
    cases s with
    | nil => simp [startsWithChars]
    | cons c cs =>
      simp only [startsWithChars, Bool.and_eq_true, beq_iff_eq, ih, List.cons_prefix_cons]
      constructor
      · rintro ⟨h1, h2⟩
        exact ⟨h1.symm, h2⟩
      · rintro ⟨h1, h2⟩
        exact ⟨h1.symm, h2⟩

/-- The search `includesChars` finds exactly the contiguous sublists. -/
theorem includesChars_iff (s needle : List Char) :
    includesChars s needle = true ↔ needle <:+: s := by
  induction s with
  | nil =>
    simp only [includesChars, startsWithChars_iff, List.prefix_nil, List.infix_nil]
  | cons c cs ih =>
    simp only [includesChars, Bool.or_eq_true, startsWithChars_iff, ih, List.infix_cons_iff]

theorem includes_iff (s needle : String) :
    includes s needle = true ↔ needle.data <:+: s.data :=
  includesChars_iff s.data needle.data

theorem includesChars_append_right (s t needle : List Char)
    (h : includesChars s needle = true) : includesChars (s ++ t) needle = true := by
  rw [includesChars_iff] at *
  exact List.IsInfix.trans h (List.infix_append' [] s t)

/-! ## Helper lemmas about the handlers -/

theorem handleIngestPdf_settle_ui {α : Type} (o : Outcome α) (w : World) :
    (handleIngestPdf_settle o w).ui =
      { w.ui with
        uploadStatus :=
          match o with
          | Outcome.resolved _ => "PDF ingested successfully!"
          | Outcome.rejected error => "Error ingesting PDF: " ++ error.message
        loading := false } := by
  cases o <;> rfl

theorem handleQuery_settle_loading (o : Outcome QueryData) (w : World) :
    (handleQuery_settle o w).ui.loading = false := by
  cases o <;> rfl

theorem applyEvent_of_loading (w : World) (e : UiEvent) (h : w.ui.loading = true) :
    (applyEvent w e).ui.loading = true ∧
      (applyEvent w e).ui.uploadStatus = w.ui.uploadStatus ∧
      (applyEvent w e).ui.answer = w.ui.answer ∧
      (applyEvent w e).ui.sources = w.ui.sources ∧
      (applyEvent w e).sent = w.sent := by
  cases e with
  | typePdfPath v => exact ⟨h, rfl, rfl, rfl, rfl⟩
  | typeQuestion v => exact ⟨h, rfl, rfl, rfl, rfl⟩
  | pressIngest =>
    have hw : clickIngest w = w := by simp [clickIngest, render, ingestDisabled, h]
    simp only [applyEvent, hw, h, and_self]
  | pressQuery =>
    have hw : clickQuery w = w := by simp [clickQuery, render, queryDisabled, h]
    simp only [applyEvent, hw, h, and_self]

theorem applyEvents_of_loading (es : List UiEvent) (w : World) (h : w.ui.loading = true) :
    (applyEvents w es).ui.loading = true ∧
      (applyEvents w es).ui.uploadStatus = w.ui.uploadStatus ∧
      (applyEvents w es).ui.answer = w.ui.answer ∧
      (applyEvents w es).ui.sources = w.ui.sources ∧
      (applyEvents w es).sent = w.sent := by
  induction es generalizing w with
  | nil => exact ⟨h, rfl, rfl, rfl, rfl⟩
  | cons e es ih =>
    obtain ⟨h1, h2, h3, h4, h5⟩ := applyEvent_of_loading w e h
    obtain ⟨k1, k2, k3, k4, k5⟩ := ih (applyEvent w e) h1
    simp only [applyEvents, List.foldl_cons] at *
    exact ⟨k1, k2.trans h2, k3.trans h3, k4.trans h4, k5.trans h5⟩

/-! ## The claims -/

/-- C1: when `handleIngestPdf` settles, `uploadStatus` is exactly
"PDF ingested successfully!" if the request resolved and exactly
"Error ingesting PDF: " followed by the error message if it was rejected, for
every prior state and every document path held in it; the value does not depend
on the prior state, and the same holds whatever state the settling segment
finds.  The message "timeout" gives "Error ingesting PDF: timeout". -/
theorem handleIngestPdf_uploadStatus {α : Type} (w w0 : World) (response : α) (m : String) :
    (handleIngestPdf (Outcome.resolved response) w).ui.uploadStatus
        = "PDF ingested successfully!" ∧
      (handleIngestPdf (Outcome.rejected ⟨m⟩ : Outcome α) w).ui.uploadStatus
        = "Error ingesting PDF: " ++ m ∧
      (∀ o : Outcome α,
        (handleIngestPdf o w).ui.uploadStatus = (handleIngestPdf o w0).ui.uploadStatus) ∧
      (handleIngestPdf_settle (Outcome.resolved response) w).ui.uploadStatus
        = "PDF ingested successfully!" ∧
      (handleIngestPdf_settle (Outcome.rejected ⟨m⟩ : Outcome α) w).ui.uploadStatus
        = "Error ingesting PDF: " ++ m ∧
      (handleIngestPdf (Outcome.rejected ⟨"timeout"⟩ : Outcome α)
          (setPdfPath "D:/doc.pdf" w)).ui.uploadStatus
        = "Error ingesting PDF: timeout" := by
  refine ⟨rfl, rfl, ?_, rfl, rfl, ?_⟩
  · intro o
    cases o <;> rfl
  · show "Error ingesting PDF: " ++ "timeout" = "Error ingesting PDF: timeout"
    decide

/-- C2: when `handleQuery` settles on a resolved response whose answer field
is `a`, `answer` is `a`; `sources` is the response's sources in the same order
when the field is there and the empty list when it is missing, and a missing
field still leaves `answer = a`.  The response with answer "42" and no sources
gives answer "42" and sources `[]`. -/
theorem handleQuery_resolved (w : World) (a : String) (srcs : List String) :
    (handleQuery (Outcome.resolved ⟨a, some srcs⟩) w).ui.answer = a ∧
      (handleQuery (Outcome.resolved ⟨a, some srcs⟩) w).ui.sources = srcs ∧
      (handleQuery (Outcome.resolved ⟨a, none⟩) w).ui.answer = a ∧
      (handleQuery (Outcome.resolved ⟨a, none⟩) w).ui.sources = [] ∧
      (handleQuery (Outcome.resolved ⟨"42", none⟩) w).ui.answer = "42" ∧
      (handleQuery (Outcome.resolved ⟨"42", none⟩) w).ui.sources = [] ∧
      (handleQuery (Outcome.resolved
          ⟨"Retrieval-Augmented Generation", some ["p1", "p3"]⟩)
          (setQuestion "What is RAG?" w)).ui.sources = ["p1", "p3"] :=
  ⟨rfl, rfl, rfl, rfl, rfl, rfl, rfl⟩

/-- C3: when `handleQuery` settles on a rejected request with message `m`,
`answer` is exactly "Error: " followed by `m` and `sources` is empty, for every
prior state, whatever answer and sources it held. -/
theorem handleQuery_rejected (w : World) (m : String) :
    (handleQuery (Outcome.rejected ⟨m⟩) w).ui.answer = "Error: " ++ m ∧
      (handleQuery (Outcome.rejected ⟨m⟩) w).ui.sources = [] ∧
      (handleQuery (Outcome.rejected ⟨m⟩) busyWorld).ui.answer = "Error: " ++ m ∧
      (handleQuery (Outcome.rejected ⟨m⟩) busyWorld).ui.sources = [] :=
  ⟨rfl, rfl, rfl, rfl⟩

/-- C4: `loading` is false in the state reached when either handler settles,
for every prior state and for every outcome, resolved or rejected; the same
holds whatever state the settling segment finds. -/
theorem loading_false_after_settle {α : Type} (w : World) (oi : Outcome α)
    (oq : Outcome QueryData) :
    (handleIngestPdf oi w).ui.loading = false ∧
      (handleQuery oq w).ui.loading = false ∧
      (handleIngestPdf_settle oi w).ui.loading = false ∧
      (handleQuery_settle oq w).ui.loading = false := by
  refine ⟨?_, handleQuery_settle_loading oq _, ?_, handleQuery_settle_loading oq w⟩
  · rw [handleIngestPdf, handleIngestPdf_settle_ui]
  · rw [handleIngestPdf_settle_ui]

/-- C5: a rejected `handleQuery` leaves `uploadStatus` as it was before the
call, and a rejected `handleIngestPdf` leaves `answer` and `sources` as they
were, for every prior state; a rejected query after a resolved ingestion still
has `uploadStatus = "PDF ingested successfully!"`. -/
theorem rejected_leaves_other_result {α : Type} (w : World) (m : String) (response : α) :
    (handleQuery (Outcome.rejected ⟨m⟩) w).ui.uploadStatus = w.ui.uploadStatus ∧
      (handleIngestPdf (Outcome.rejected ⟨m⟩ : Outcome α) w).ui.answer = w.ui.answer ∧
      (handleIngestPdf (Outcome.rejected ⟨m⟩ : Outcome α) w).ui.sources = w.ui.sources ∧
      (handleQuery (Outcome.rejected ⟨m⟩)
          (handleIngestPdf (Outcome.resolved response) w)).ui.uploadStatus
        = "PDF ingested successfully!" :=
  ⟨rfl, rfl, rfl, rfl⟩

/-- C6, as stated, fails: in `busyWorld`, where `loading` is true, calling
either handler changes the state (the ingest handler clears `uploadStatus`, the
query handler clears `answer` and `sources`) and hands one more request to the
transport. -/
theorem handlers_not_guarded_by_loading :
    busyWorld.ui.loading = true ∧
      (handleIngestPdf_dispatch busyWorld).ui ≠ busyWorld.ui ∧
      (handleIngestPdf_dispatch busyWorld).sent.length = busyWorld.sent.length + 1 ∧
      (handleQuery_dispatch busyWorld).ui ≠ busyWorld.ui ∧
      (handleQuery_dispatch busyWorld).sent.length = busyWorld.sent.length + 1 := by
  decide

/-- C6, amended: in every state in which `loading` is true both buttons are
disabled, so a click on either one has no effect: the state is unchanged and
the transport log does not grow.  The same holds for every sequence of user
events (typing and clicks) while the request is in flight: no request is added
to the log and `loading` stays true. -/
theorem click_while_loading_no_effect (w : World) (es : List UiEvent)
    (h : w.ui.loading = true) :
    (render w.ui).ingestDisabled = true ∧
      (render w.ui).queryDisabled = true ∧
      clickIngest w = w ∧
      clickQuery w = w ∧
      (clickIngest w).sent.length = w.sent.length ∧
      (clickQuery w).sent.length = w.sent.length ∧
      (applyEvents w es).sent = w.sent ∧
      (applyEvents w es).ui.loading = true := by
  have hi : (render w.ui).ingestDisabled = true := by simp [render, ingestDisabled, h]
  have hq : (render w.ui).queryDisabled = true := by simp [render, queryDisabled, h]
  have ci : clickIngest w = w := by simp [clickIngest, hi]
  have cq : clickQuery w = w := by simp [clickQuery, hq]
  obtain ⟨k1, _, _, _, k5⟩ := applyEvents_of_loading es w h
  exact ⟨hi, hq, ci, cq, by rw [ci], by rw [cq], k5, k1⟩

/-- The amended C6 at `busyWorld`, where `loading` is true: both clicks and a
run of three user events leave the state and the transport log as they were. -/
theorem click_while_loading_no_effect_witness :
    busyWorld.ui.loading = true ∧
      clickIngest busyWorld = busyWorld ∧
      clickQuery busyWorld = busyWorld ∧
      (applyEvents busyWorld [UiEvent.pressIngest, UiEvent.typeQuestion "y",
        UiEvent.pressQuery]).sent = busyWorld.sent :=
  have k := click_while_loading_no_effect busyWorld
    [UiEvent.pressIngest, UiEvent.typeQuestion "y", UiEvent.pressQuery] (by decide)
  ⟨by decide, k.2.2.1, k.2.2.2.1, k.2.2.2.2.2.2.1⟩

/-- C7: for every prior state, the state held when `handleIngestPdf` has handed
its request to the transport has `loading = true` and `uploadStatus = ""`, and
the state held when `handleQuery` has handed over its request has
`loading = true`, `answer = ""` and `sources = []`; exactly one request, built
from the input of the prior state, was added to the log.  Whatever the user
types or clicks while the request is in flight, the cleared fields stay empty
and `loading` stays true, so no earlier status or answer shows next to the
pending request. -/
theorem cleared_at_dispatch (w : World) (es : List UiEvent) :
    (handleIngestPdf_dispatch w).ui.loading = true ∧
      (handleIngestPdf_dispatch w).ui.uploadStatus = "" ∧
      (handleIngestPdf_dispatch w).sent = w.sent ++ [Request.ingest w.ui.pdfPath] ∧
      (handleQuery_dispatch w).ui.loading = true ∧
      (handleQuery_dispatch w).ui.answer = "" ∧
      (handleQuery_dispatch w).ui.sources = [] ∧
      (handleQuery_dispatch w).sent = w.sent ++ [Request.query w.ui.question 5] ∧
      (applyEvents (handleIngestPdf_dispatch w) es).ui.loading = true ∧
      (applyEvents (handleIngestPdf_dispatch w) es).ui.uploadStatus = "" ∧
      (applyEvents (handleQuery_dispatch w) es).ui.loading = true ∧
      (applyEvents (handleQuery_dispatch w) es).ui.answer = "" ∧
      (applyEvents (handleQuery_dispatch w) es).ui.sources = [] := by
  obtain ⟨i1, i2, _, _, _⟩ := applyEvents_of_loading es (handleIngestPdf_dispatch w) rfl
  obtain ⟨q1, _, q3, q4, _⟩ := applyEvents_of_loading es (handleQuery_dispatch w) rfl
  exact ⟨rfl, rfl, rfl, rfl, rfl, rfl, rfl, i1, i2, q1, q3, q4⟩

/-- C8: for every state, the ingest button is disabled if and only if `loading`
is true or `pdfPath` is the empty string, and the query button is disabled if
and only if `loading` is true or `question` is the empty string; both are read
off the view, which is a function of the state alone. -/
theorem buttons_disabled_iff (s : AppState) :
    ((render s).ingestDisabled = true ↔ s.loading = true ∨ s.pdfPath = "") ∧
      ((render s).queryDisabled = true ↔ s.loading = true ∨ s.question = "") := by
  simp [render, ingestDisabled, queryDisabled, truthy]

/-- C9, as stated, fails: a query that resolves with an empty answer string
settles with `answer = ""`, and the view shows no answer block at all, neither
a result nor an error message. -/
theorem empty_answer_renders_nothing :
    (handleQuery (Outcome.resolved ⟨"", some ["p1"]⟩) idleWorld).ui.answer = "" ∧
      (render (handleQuery (Outcome.resolved ⟨"", some ["p1"]⟩) idleWorld).ui).answerBlock
        = none := by
  decide

/-- C9, amended: after a settled `handleIngestPdf` the status block is rendered
for every outcome, showing the success text when the request resolved and the
error text when it was rejected.  After a settled `handleQuery` the answer block
is rendered if and only if the final `answer` is non-empty: always when the
request was rejected, where it shows "Error: " followed by the message, and,
when the request resolved, exactly when the answer field of the response is a
non-empty string, where it shows that answer. -/
theorem blocks_after_settle {α : Type} (w : World) (response : α) (m : String)
    (data : QueryData) (oi : Outcome α) (oq : Outcome QueryData) :
    ((render (handleIngestPdf oi w).ui).statusBlock).isSome = true ∧
      ((render (handleIngestPdf (Outcome.resolved response) w).ui).statusBlock).map Prod.snd
        = some "PDF ingested successfully!" ∧
      ((render (handleIngestPdf (Outcome.rejected ⟨m⟩ : Outcome α) w).ui).statusBlock).map
          Prod.snd
        = some ("Error ingesting PDF: " ++ m) ∧
      (((render (handleQuery oq w).ui).answerBlock).isSome = true
        ↔ (handleQuery oq w).ui.answer ≠ "") ∧
      ((render (handleQuery (Outcome.rejected ⟨m⟩) w).ui).answerBlock)
        = some ("Error: " ++ m, none) ∧
      (((render (handleQuery (Outcome.resolved data) w).ui).answerBlock).isSome = true
        ↔ data.answer ≠ "") ∧
      ((render (handleQuery (Outcome.resolved data) w).ui).answerBlock).map Prod.fst
        = (if data.answer = "" then none else some data.answer) := by
  have herr : truthy ("Error ingesting PDF: " ++ m) = true :=
    truthy_append_of_truthy _ m (by decide)
  have hq : truthy ("Error: " ++ m) = true := truthy_append_of_truthy _ m (by decide)
  have hok : truthy "PDF ingested successfully!" = true := by decide
  have hblock : ∀ s : AppState, (answerBlock s).isSome = true ↔ s.answer ≠ "" := by
    intro s
    by_cases hs : truthy s.answer = true
    · simp [answerBlock, hs, (truthy_iff _).1 hs]
    · have hs2 : s.answer = "" := by
        by_contra hne
        exact hs ((truthy_iff _).2 hne)
      have hf : truthy "" = false := by decide
      simp [answerBlock, hs2, hf]
  refine ⟨?_, ?_, ?_, hblock _, ?_, hblock _, ?_⟩
  · cases oi with
    | resolved r =>
      show (statusBlock { (handleIngestPdf_dispatch w).ui with
        uploadStatus := "PDF ingested successfully!", loading := false }).isSome = true
      simp [statusBlock, hok]
    | rejected e =>
      show (statusBlock { (handleIngestPdf_dispatch w).ui with
        uploadStatus := "Error ingesting PDF: " ++ e.message, loading := false }).isSome = true
      simp [statusBlock, truthy_append_of_truthy "Error ingesting PDF: " e.message (by decide)]
  · show (statusBlock { (handleIngestPdf_dispatch w).ui with
      uploadStatus := "PDF ingested successfully!", loading := false }).map Prod.snd = _
    simp [statusBlock, hok]
  · show (statusBlock { (handleIngestPdf_dispatch w).ui with
      uploadStatus := "Error ingesting PDF: " ++ m, loading := false }).map Prod.snd = _
    simp [statusBlock, herr]
  · show answerBlock { (handleQuery_dispatch w).ui with
      answer := "Error: " ++ m, loading := false } = _
    simp [answerBlock, hq, sourcesList, handleQuery_dispatch, setSources, setAnswer, setLoading,
      axiosPost]
  · show (answerBlock { (handleQuery_dispatch w).ui with
      answer := data.answer, sources := orEmpty data.sources, loading := false }).map Prod.fst = _
    by_cases hne : data.answer = ""
    · have hf : truthy "" = false := by decide
      simp [answerBlock, hne, hf]
    · simp [answerBlock, (truthy_iff _).2 hne, hne]

/-- C10: the class chosen by the substring test agrees with the outcome.  For
every prior state, a settled `handleIngestPdf` renders the status block with
class `success` when the request resolved and with class `error` when it was
rejected, for every message, the empty one included: the text
"PDF ingested successfully!" does not contain "Error", and "Error ingesting PDF: "
followed by any message does. -/
theorem status_class_matches_outcome {α : Type} (w : World) (response : α) (m : String) :
    (render (handleIngestPdf (Outcome.resolved response) w).ui).statusBlock
        = some (StatusClass.success, "PDF ingested successfully!") ∧
      (render (handleIngestPdf (Outcome.rejected ⟨m⟩ : Outcome α) w).ui).statusBlock
        = some (StatusClass.error, "Error ingesting PDF: " ++ m) ∧
      (render (handleIngestPdf (Outcome.rejected ⟨""⟩ : Outcome α) w).ui).statusBlock
        = some (StatusClass.error, "Error ingesting PDF: ") ∧
      includes "PDF ingested successfully!" "Error" = false ∧
      includes ("Error ingesting PDF: " ++ m) "Error" = true := by
  have hok : truthy "PDF ingested successfully!" = true := by decide
  have hno : includes "PDF ingested successfully!" "Error" = false := by decide
  have herr : ∀ t : String, truthy ("Error ingesting PDF: " ++ t) = true :=
    fun t => truthy_append_of_truthy _ t (by decide)
  have hinc : ∀ t : String, includes ("Error ingesting PDF: " ++ t) "Error" = true := by
    intro t
    unfold includes
    rw [String.data_append]
    exact includesChars_append_right _ _ _ (by decide)
  have hrej : ∀ t : String,
      (render (handleIngestPdf (Outcome.rejected ⟨t⟩ : Outcome α) w).ui).statusBlock
        = some (StatusClass.error, "Error ingesting PDF: " ++ t) := by
    intro t
    show statusBlock { (handleIngestPdf_dispatch w).ui with
      uploadStatus := "Error ingesting PDF: " ++ t, loading := false } = _
    simp [statusBlock, herr t, hinc t]
  refine ⟨?_, hrej m, ?_, hno, hinc m⟩
  · show statusBlock { (handleIngestPdf_dispatch w).ui with
      uploadStatus := "PDF ingested successfully!", loading := false } = _
    simp [statusBlock, hok, hno]
  · have h := hrej ""
    have hs : "Error ingesting PDF: " ++ "" = "Error ingesting PDF: " := by decide
    rw [hs] at h
    exact h

end RagApp
